import Mathlib

/-!
Shallow embedding of the core of the football transfer-record scraper:
the resilience primitives of `scraper/llm_client.py` (circuit breaker,
token-bucket rate limiter, backoff retry executor), the extraction routing
of `scraper/workers/extraction_worker.py`, the link routing and page
fetching of `scraper/workers/discovery_worker.py`, and the selector
repair of `scraper/workers/repair_worker.py`.

Wall-clock time and token counts are modelled with rationals; the
behaviour of the external world (HTTP responses, inference-backend
outcomes, parser outcomes, random jitter draws) is passed in as explicit
parameters, so every definition is executable and every run is a pure
function of its inputs.
-/

namespace Scraper

/-- Embeds `CircuitBreaker.__init__` state of `scraper/llm_client.py`:
threshold, timeout, failure count, last-failure timestamp, open flag. -/
structure CircuitBreaker where
  threshold : ℕ
  timeout : ℚ
  failures : ℕ
  last_failure_time : ℚ
  is_open : Bool
deriving Repr, DecidableEq

namespace CircuitBreaker

/-- Embeds `CircuitBreaker.__init__`: fresh breaker, closed, zero failures. -/
def init (threshold : ℕ) (timeout : ℚ) : CircuitBreaker :=
  { threshold := threshold, timeout := timeout, failures := 0
    last_failure_time := 0, is_open := false }

/-- Embeds `CircuitBreaker.record_success`: reset failures, close. -/
def record_success (cb : CircuitBreaker) : CircuitBreaker :=
  { cb with failures := 0, is_open := false }

/-- Embeds `CircuitBreaker.record_failure` with `now` standing for
`time.time()`: increment failures, stamp the time, open the breaker once
the failure count reaches the threshold (the flag is only ever set here,
never cleared). -/
def record_failure (now : ℚ) (cb : CircuitBreaker) : CircuitBreaker :=
  let f := cb.failures + 1
  { cb with
    failures := f
    last_failure_time := now
    is_open := cb.is_open || decide (cb.threshold ≤ f) }

/-- Embeds `CircuitBreaker.can_attempt` with `now` standing for
`time.time()`. Returns the boolean result together with the mutated
state: when open and strictly more than `timeout` has elapsed since the
last failure, the breaker closes itself and resets its failure count
before permitting the call. -/
def can_attempt (now : ℚ) (cb : CircuitBreaker) : Bool × CircuitBreaker :=
  if cb.is_open = false then
    (true, cb)
  else if now - cb.last_failure_time > cb.timeout then
    (true, { cb with is_open := false, failures := 0 })
  else
    (false, cb)

/-- Iterated `record_failure` at a common timestamp: `n` consecutive
failed calls recorded against the breaker. -/
def applyFailures (t : ℚ) : ℕ → CircuitBreaker → CircuitBreaker
  | 0, cb => cb
  | n + 1, cb => applyFailures t n (record_failure t cb)

end CircuitBreaker

/-- Embeds `RateLimiter.__init__` state of `scraper/llm_client.py`:
token-bucket level, refill timestamp, in-flight counter, and the internal
counter of the `asyncio.Semaphore(max_concurrent)` (number of free slots). -/
structure RateLimiter where
  requests_per_minute : ℚ
  max_concurrent : ℕ
  tokens : ℚ
  last_refill : ℚ
  active_requests : ℤ
  semAvailable : ℕ
deriving Repr, DecidableEq

namespace RateLimiter

/-- Embeds `RateLimiter.__init__`: bucket starts full, no in-flight calls,
all semaphore slots free. -/
def init (rpm : ℚ) (mc : ℕ) : RateLimiter :=
  { requests_per_minute := rpm, max_concurrent := mc, tokens := rpm
    last_refill := 0, active_requests := 0, semAvailable := mc }

/-- Embeds the refill step of `RateLimiter.acquire` (lines 78-82 and
95-99 of `llm_client.py`): add `elapsed * rpm/60` tokens, capped at
`requests_per_minute`, and stamp the refill time. -/
def refill (now : ℚ) (st : RateLimiter) : RateLimiter :=
  let elapsed := now - st.last_refill
  let tokens_to_add := elapsed * (st.requests_per_minute / 60)
  { st with
    tokens := min st.requests_per_minute (st.tokens + tokens_to_add)
    last_refill := now }

/-- Embeds the `while self.tokens < 1` wait loop of `RateLimiter.acquire`:
each element of `waits` is the wall-clock time at which the sleeping
coroutine wakes and refills again. Returns `none` when the supplied
wake-ups never produce a full token (the caller is still blocked). -/
def waitLoop (st : RateLimiter) : List ℚ → Option RateLimiter
  | [] => if 1 ≤ st.tokens then some st else none
  | t :: ts => if 1 ≤ st.tokens then some st else waitLoop (refill t st) ts

/-- Embeds `RateLimiter.acquire`: first take a semaphore slot (`none`
when no slot is free, i.e. the caller blocks), then refill at `now`,
wait for at least one token, and consume exactly one token while
counting the call as in-flight. -/
def acquire (now : ℚ) (waits : List ℚ) (st : RateLimiter) : Option RateLimiter :=
  if st.semAvailable = 0 then none
  else
    match waitLoop (refill now { st with semAvailable := st.semAvailable - 1 }) waits with
    | none => none
    | some r => some { r with tokens := r.tokens - 1, active_requests := r.active_requests + 1 }

/-- Embeds `RateLimiter.release`: give back the semaphore slot and
decrement the in-flight counter; the consumed token is not returned. -/
def release (st : RateLimiter) : RateLimiter :=
  { st with active_requests := st.active_requests - 1, semAvailable := st.semAvailable + 1 }

end RateLimiter

/-- One attempt's outcome of the wrapped coroutine inside
`LLMClient._execute_with_backoff`: a returned value, or an exception
whose string matches (`retryable = true`) or does not match the
retryable-error patterns of lines 155-163 of `llm_client.py`. -/
inductive Outcome where
  | ok (v : String)
  | err (retryable : Bool) (msg : String)
deriving Repr, DecidableEq

/-- Result of one `_execute_with_backoff` invocation. `breakerOpen` is
the distinguishable "Circuit breaker is open, refusing ..." exception
raised before anything else happens; `raised` re-raises the attempt's
exception; `raisedNone` is the unreachable-for-positive-retries
`raise last_error` after the loop with `last_error = None`; `blocked`
marks a run whose rate-limiter acquisition never completed within the
supplied wake-ups. -/
inductive ExecResult where
  | value (v : String)
  | breakerOpen
  | raised (msg : String)
  | raisedNone
  | blocked
deriving Repr, DecidableEq

/-- Full observable output of one `_execute_with_backoff` invocation:
the result, the backoff sleeps performed in order, the number of times
the wrapped coroutine was actually invoked, and the final breaker and
limiter states. -/
structure RunOutput where
  res : ExecResult
  sleeps : List ℚ
  calls : ℕ
  cb : CircuitBreaker
  rl : RateLimiter
deriving Repr, DecidableEq

/-- The nominal (pre-jitter) backoff of attempt `attempt`:
`min(base_backoff * 2 ** attempt, max_backoff)`. -/
def nominalBackoff (base maxB : ℚ) (attempt : ℕ) : ℚ :=
  min (base * 2 ^ attempt) maxB

/-- Embeds the `for attempt in range(max_retries)` loop of
`LLMClient._execute_with_backoff`. `att i` is the outcome of the `i`-th
invocation of the wrapped coroutine, `jit i` the value drawn by
`random.uniform(-0.25, 0.25)` after attempt `i`. The second numeric
argument is the remaining number of loop iterations (initially
`max_retries`, matching the first argument `i = 0`); `tNow` stands for
`time.time()` at failure recording. -/
def retryLoop (mr : ℕ) (base maxB tNow : ℚ) (att : ℕ → Outcome) (jit : ℕ → ℚ)
    (cb : CircuitBreaker) : ℕ → ℕ → ExecResult × List ℚ × ℕ × CircuitBreaker
  | _, 0 => (.raisedNone, [], 0, cb.record_failure tNow)
  | i, n + 1 =>
    match att i with
    | .ok v => (.value v, [], 1, cb.record_success)
    | .err r m =>
      if r = false ∨ i = mr - 1 then
        (.raised m, [], 1, cb.record_failure tNow)
      else
        let b := nominalBackoff base maxB i
        let rest := retryLoop mr base maxB tNow att jit cb (i + 1) n
        (rest.1, (b + b * jit i) :: rest.2.1, rest.2.2.1 + 1, rest.2.2.2)

/-- The retry-related settings of `VLLMSettings` used by
`_execute_with_backoff`. -/
structure ExecConfig where
  max_retries : ℕ
  base_backoff : ℚ
  max_backoff : ℚ
deriving Repr, DecidableEq

/-- Embeds `LLMClient._execute_with_backoff`: breaker admission check
(raising the breaker-open error before touching the rate limiter or the
coroutine), rate-limiter acquisition, the retry loop, and the `finally`
release of the semaphore slot on every completed run. -/
def executeWithBackoff (cfg : ExecConfig) (now : ℚ) (waits : List ℚ)
    (att : ℕ → Outcome) (jit : ℕ → ℚ) (cb : CircuitBreaker) (rl : RateLimiter) :
    RunOutput :=
  let c := cb.can_attempt now
  if c.1 = false then
    ⟨.breakerOpen, [], 0, c.2, rl⟩
  else
    match RateLimiter.acquire now waits rl with
    | none => ⟨.blocked, [], 0, c.2, rl⟩
    | some rl1 =>
      let r := retryLoop cfg.max_retries cfg.base_backoff cfg.max_backoff now att jit c.2 0
        cfg.max_retries
      ⟨r.1, r.2.1, r.2.2.1, r.2.2.2, rl1.release⟩

/-- Embeds the `PageType` enum of `scraper/models.py`. -/
inductive PageType where
  | league_index
  | league_index_bs
  | league_index_enrich
  | league_clubs
  | club_profile
  | club_transfers
  | player_profile
  | player_transfers
  | competition_page
  | unknown
deriving Repr, DecidableEq

/-- The string value of each `PageType` member. -/
def PageType.value : PageType → String
  | .league_index => "league_index"
  | .league_index_bs => "league_index_bs"
  | .league_index_enrich => "league_index_enrich"
  | .league_clubs => "league_clubs"
  | .club_profile => "club_profile"
  | .club_transfers => "club_transfers"
  | .player_profile => "player_profile"
  | .player_transfers => "player_transfers"
  | .competition_page => "competition_page"
  | .unknown => "unknown"

/-- The raw structured payload of an extraction, modelled as an
association list standing for the Python dict. -/
abbrev Payload := List (String × String)

/-- A value of a `ScrapingTask.metadata` entry: plain string, boolean
flag, optional string (`tm_id`), or a selector map
(`suggested_selectors`). -/
inductive MetaVal where
  | str (s : String)
  | boolV (b : Bool)
  | optStr (o : Option String)
  | selectors (sel : List (String × String))
deriving Repr, DecidableEq

/-- Embeds `ScrapingTask` of `scraper/models.py` (the fields the worker
logic reads; `created_at` is a timestamp default and never read by the
workers). -/
structure ScrapingTask where
  url : String
  page_type : PageType
  priority : ℕ
  metadata : List (String × MetaVal)
  retry_count : ℕ
deriving Repr, DecidableEq

/-- Embeds the part of `ValidationReport` of `scraper/models.py` that
the extraction worker inspects. -/
structure ValidationReport where
  warnings : List String
  needs_review : Bool
deriving Repr, DecidableEq

/-- Embeds `ExtractionResult` of `scraper/models.py` (the fields the
claims are about; typed sub-records and timing are owned by excluded
collaborators). `extraction_backend` defaults to "llm" as in the
Pydantic model. -/
structure ExtractionResult where
  success : Bool
  page_type : PageType
  url : String
  data : Payload
  error : Option String
  extraction_backend : String
  validation : Option ValidationReport
deriving Repr, DecidableEq

/-- Embeds `RepairTask` of `scraper/models.py`. -/
structure RepairTask where
  url : String
  page_type : PageType
  html_snippet : String
  failed_selectors : List (String × String)
  error_message : String
  original_task : ScrapingTask
deriving Repr, DecidableEq

/-- Embeds the fields of `ScraperSettings` of `scraper/config.py` that
drive extraction routing and repair: the BS feature flags, the parsed
`use_bs_extractors_for` list, and `max_retries` (used both as the fetch
attempt bound and as the repair-routing bound). -/
structure ScraperSettings where
  use_bs_extractors : Bool
  use_bs_extractors_for : List String
  bs_fallback_to_llm : Bool
  enable_llm_validation : Bool
  max_retries : ℕ
deriving Repr, DecidableEq

/-- Outcome of the deterministic BeautifulSoup parser for the fetched
page: a parsed payload, a typed `ExtractionError` (message `str(e)`),
or any other exception (message `str(e)`). -/
inductive BsOutcome where
  | parsed (payload : Payload)
  | extractionError (msg : String)
  | otherError (msg : String)
deriving Repr, DecidableEq

/-- Outcome of the generative path of `extract_from_page_llm`: a parsed
payload (including successful model conversion), an
`asyncio.TimeoutError` of the 120-second `wait_for`, or any other
exception escaping the `try` body, with `msg = str(e)`. -/
inductive LlmOutcome where
  | ok (payload : Payload)
  | timeout
  | failed (msg : String)
deriving Repr, DecidableEq

/-- Python's `str.lower()`, modelled as per-character lowercasing (the
URLs involved are ASCII). -/
def lowerStr (s : String) : String :=
  String.mk (s.toList.map Char.toLower)

/-- Embeds `ExtractionAgent.is_transfermarkt_url`:
`'transfermarkt.com' in url.lower()` (substring containment). -/
def is_transfermarkt_url (url : String) : Bool :=
  decide ("transfermarkt.com".toList <:+: (lowerStr url).toList)

/-- Embeds `ExtractionAgent.should_use_bs_for_page_type`: global flag
first, then the per-page-type allow list (empty list means all types). -/
def should_use_bs_for_page_type (s : ScraperSettings) (pt : PageType) : Bool :=
  if s.use_bs_extractors = false then false
  else if s.use_bs_extractors_for ≠ [] then decide (pt.value ∈ s.use_bs_extractors_for)
  else true

/-- Embeds `ExtractionAgent.extract_from_page_bs`: on parser success a
`success = true` result with backend "bs" (with the advisory validation
report attached when LLM validation is enabled and the validator did not
itself raise, `validator = none` standing for a raised or absent
report); on either exception branch a `success = false` result with
`error = str(e)` and backend "bs". -/
def extract_from_page_bs (s : ScraperSettings) (bs : BsOutcome)
    (validator : Option ValidationReport) (url : String) (pt : PageType) :
    ExtractionResult :=
  match bs with
  | .parsed p =>
      { success := true, page_type := pt, url := url, data := p, error := none
        extraction_backend := "bs"
        validation := if s.enable_llm_validation then validator else none }
  | .extractionError m =>
      { success := false, page_type := pt, url := url, data := [], error := some m
        extraction_backend := "bs", validation := none }
  | .otherError m =>
      { success := false, page_type := pt, url := url, data := [], error := some m
        extraction_backend := "bs", validation := none }

/-- Embeds `ExtractionAgent.extract_from_page_llm`: success carries the
payload with backend "llm"; an `asyncio.TimeoutError` is re-raised as
an `Exception` whose message is "LLM extraction timeout for " followed
by the url, caught by the outer handler; any other exception yields
`success = false` with
`error = str(e)`. The failure constructor omits `extraction_backend`,
so the Pydantic default "llm" applies. -/
def extract_from_page_llm (llm : LlmOutcome) (url : String) (pt : PageType) :
    ExtractionResult :=
  match llm with
  | .ok p =>
      { success := true, page_type := pt, url := url, data := p, error := none
        extraction_backend := "llm", validation := none }
  | .timeout =>
      { success := false, page_type := pt, url := url, data := []
        error := some ("LLM extraction timeout for " ++ url)
        extraction_backend := "llm", validation := none }
  | .failed m =>
      { success := false, page_type := pt, url := url, data := [], error := some m
        extraction_backend := "llm", validation := none }

/-- Embeds `ExtractionAgent.extract_from_page`: use the deterministic
parser when the URL is a Transfermarkt URL and the page type is enabled
for BS extraction; on BS failure with `bs_fallback_to_llm` enabled run
the generative extractor and overwrite the backend tag with
"bs_fallback_llm"; otherwise run the generative extractor directly. -/
def extract_from_page (s : ScraperSettings) (bs : BsOutcome) (llm : LlmOutcome)
    (validator : Option ValidationReport) (url : String) (pt : PageType) :
    ExtractionResult :=
  let use_bs := is_transfermarkt_url url && should_use_bs_for_page_type s pt
  if use_bs then
    let result := extract_from_page_bs s bs validator url pt
    if result.success = false ∧ s.bs_fallback_to_llm = true then
      let r2 := extract_from_page_llm llm url pt
      { r2 with extraction_backend := "bs_fallback_llm" }
    else result
  else
    extract_from_page_llm llm url pt

/-- The HTTP response observed by the `i`-th GET inside
`DiscoveryAgent.fetch_page`: a 200 with body, a 429, another HTTP
status, an `asyncio.TimeoutError`, an `aiohttp.ClientError`, or any
other exception. -/
inductive FetchResponse where
  | ok (content : String)
  | rateLimited
  | httpError (status : ℕ)
  | timeoutError
  | clientError (msg : String)
  | otherError (msg : String)
deriving Repr, DecidableEq

/-- Observable output of one `DiscoveryAgent.fetch_page` call: the
returned content (or `None`), the visited set afterwards, the number of
HTTP GETs issued, whether the politeness delay ran, and the escalating
429 sleeps performed. -/
structure FetchOutput where
  result : Option String
  visited : List String
  requests : ℕ
  delayed : Bool
  sleeps : List ℚ
deriving Repr, DecidableEq

/-- Embeds the `for attempt in range(max_retries)` retry loop of
`DiscoveryAgent.fetch_page`: one GET per iteration; a 200 adds the URL
to the visited set and returns the body; a 429 sleeps `30 * (attempt+1)`
seconds and retries; other statuses and exceptions just retry; exhausted
retries return `None`. -/
def fetchLoop (resp : ℕ → FetchResponse) (url : String) (visited : List String) :
    ℕ → ℕ → Option String × List String × ℕ × List ℚ
  | _, 0 => (none, visited, 0, [])
  | i, n + 1 =>
    match resp i with
    | .ok c => (some c, url :: visited, 1, [])
    | .rateLimited =>
        let rest := fetchLoop resp url visited (i + 1) n
        (rest.1, rest.2.1, rest.2.2.1 + 1, (30 * ((i : ℚ) + 1)) :: rest.2.2.2)
    | .httpError _ =>
        let rest := fetchLoop resp url visited (i + 1) n
        (rest.1, rest.2.1, rest.2.2.1 + 1, rest.2.2.2)
    | .timeoutError =>
        let rest := fetchLoop resp url visited (i + 1) n
        (rest.1, rest.2.1, rest.2.2.1 + 1, rest.2.2.2)
    | .clientError _ =>
        let rest := fetchLoop resp url visited (i + 1) n
        (rest.1, rest.2.1, rest.2.2.1 + 1, rest.2.2.2)
    | .otherError _ =>
        let rest := fetchLoop resp url visited (i + 1) n
        (rest.1, rest.2.1, rest.2.2.1 + 1, rest.2.2.2)

/-- Embeds `DiscoveryAgent.fetch_page`: an already-visited URL returns
`None` immediately, before the politeness delay and before any HTTP
request; a missing session likewise; otherwise the politeness delay runs
and the retry loop takes over. `maxRetries` is
`settings.scraper.max_retries`. -/
def fetch_page (maxRetries : ℕ) (visited : List String) (sessionUp : Bool)
    (resp : ℕ → FetchResponse) (url : String) : FetchOutput :=
  if url ∈ visited then
    { result := none, visited := visited, requests := 0, delayed := false, sleeps := [] }
  else if sessionUp = false then
    { result := none, visited := visited, requests := 0, delayed := false, sleeps := [] }
  else
    let r := fetchLoop resp url visited 0 maxRetries
    { result := r.1, visited := r.2.1, requests := r.2.2.1, delayed := true
      sleeps := r.2.2.2 }

/-- Observable output of one `ExtractionAgent.process_task` call: the
results appended to the output log, the repair tasks published to the
repair queue, and the visited set afterwards. -/
structure ProcessOutput where
  saved : List ExtractionResult
  repairs : List RepairTask
  visited : List String
deriving Repr, DecidableEq

/-- Embeds `ExtractionAgent.process_task`: fetch the page with the
shared `DiscoveryAgent.fetch_page` primitive; the `if not html:` guard
is Python truthiness, so both a `None` fetch result and a 200 response
with an empty body make the worker log and return (nothing saved,
nothing published); otherwise extract, save the result, and publish a
repair task exactly when the extraction failed and
`task.retry_count < settings.scraper.max_retries`. The repair task's
error message is `result.error or "Unknown error"` (again truthiness:
`None` and the empty string both fall back). -/
def process_task (s : ScraperSettings) (visited : List String) (sessionUp : Bool)
    (resp : ℕ → FetchResponse) (bs : BsOutcome) (llm : LlmOutcome)
    (validator : Option ValidationReport) (task : ScrapingTask) : ProcessOutput :=
  let f := fetch_page s.max_retries visited sessionUp resp task.url
  match f.result with
  | none => { saved := [], repairs := [], visited := f.visited }
  | some html =>
      if html = "" then { saved := [], repairs := [], visited := f.visited } else
      let result := extract_from_page s bs llm validator task.url task.page_type
      let repairs :=
        if result.success = false ∧ task.retry_count < s.max_retries then
          [{ url := task.url
             page_type := task.page_type
             html_snippet := html.take 5000
             failed_selectors := []
             error_message :=
               match result.error with
               | some m => if m = "" then "Unknown error" else m
               | none => "Unknown error"
             original_task := task }]
        else []
      { saved := [result], repairs := repairs, visited := f.visited }

/-- The three durable queues of `scraper/queue.py`. -/
inductive QueueName where
  | discovery
  | extraction
  | repair
deriving Repr, DecidableEq

/-- The insertion order of `DiscoveryAgent.PATTERNS`, which
`classify_url` iterates over. -/
def PATTERNS_order : List PageType :=
  [.league_index, .league_clubs, .club_profile, .club_transfers,
   .player_profile, .player_transfers, .competition_page]

/-- Embeds `DiscoveryAgent.classify_url`: the first pattern in
`PATTERNS` order whose regex matches the URL wins; no match yields
`UNKNOWN`. `patMatch pt` stands for `PATTERNS[pt].search(url)` being
truthy. -/
def classify_url (patMatch : PageType → Bool) : PageType :=
  match PATTERNS_order.find? patMatch with
  | some pt => pt
  | none => .unknown

/-- Embeds `DiscoveryAgent.prioritize_url`: the static kind-to-priority
table, with `TaskPriority.LOW = 2` as the default for kinds missing from
the table. -/
def prioritize_url (pt : PageType) : ℕ :=
  match pt with
  | .league_index => 10
  | .league_clubs => 8
  | .club_transfers => 8
  | .player_transfers => 5
  | .club_profile => 5
  | .player_profile => 5
  | .competition_page => 2
  | .unknown => 2
  | _ => 2

/-- The page kinds routed to the extraction queue by
`DiscoveryAgent.process_task` (lines 239-243 of
`discovery_worker.py`). -/
def highValueKinds : List PageType :=
  [.club_transfers, .player_transfers, .player_profile]

/-- Embeds the per-link body of the `for link in links` loop of
`DiscoveryAgent.process_task`: classify, prioritize, build the new task
(metadata `discovered_from` and `tm_id`), and publish to the extraction
queue when the kind is high-value, otherwise to the discovery queue. -/
def route_link (taskUrl link : String) (patMatch : PageType → Bool)
    (tm_id : Option String) : QueueName × ScrapingTask :=
  let pt := classify_url patMatch
  let pr := prioritize_url pt
  let t : ScrapingTask :=
    { url := link, page_type := pt, priority := pr
      metadata := [("discovered_from", .str taskUrl), ("tm_id", .optStr tm_id)]
      retry_count := 0 }
  if pt ∈ highValueKinds then (QueueName.extraction, t) else (QueueName.discovery, t)

/-- Embeds the link-publishing phase of `DiscoveryAgent.process_task`
after a successful fetch: every extracted link is routed exactly once. -/
def publish_links (taskUrl : String)
    (links : List (String × (PageType → Bool) × Option String)) :
    List (QueueName × ScrapingTask) :=
  links.map fun l => route_link taskUrl l.1 l.2.1 l.2.2

/-- Python dict update `d[k] = v` on a metadata map: any earlier binding
of `k` is replaced, the new binding is appended. -/
def metaInsert (k : String) (v : MetaVal) (m : List (String × MetaVal)) :
    List (String × MetaVal) :=
  (m.filter fun p => p.1 ≠ k) ++ [(k, v)]

/-- Embeds `RepairAgent.repair_selectors`: `llm = some sel` is a
successful `repair_selectors` call of the inference client returning the
suggested selector map, `none` any exception in the `try` body. On
success a new task for the original task's locator is published to the
extraction queue with `retry_count` incremented and the suggestions in
its metadata; on failure nothing is published and `False` is returned
(the caller `process_task` ignores it, so the repair task is dropped). -/
def repair_selectors (rt : RepairTask) (llm : Option (List (String × String))) :
    List (QueueName × ScrapingTask) × Bool :=
  match llm with
  | none => ([], false)
  | some sel =>
      let retry_task : ScrapingTask :=
        { url := rt.original_task.url
          page_type := rt.original_task.page_type
          priority := rt.original_task.priority
          metadata := metaInsert "suggested_selectors" (.selectors sel)
            (metaInsert "repaired" (.boolV true) rt.original_task.metadata)
          retry_count := rt.original_task.retry_count + 1 }
      ([(QueueName.extraction, retry_task)], true)

/-- Holds when every exception message fed into the extraction paths is
non-empty (Python exceptions carry arbitrary, possibly empty, string
representations). -/
def nonEmptyMsgs (bs : BsOutcome) (llm : LlmOutcome) : Bool :=
  (match bs with
   | .parsed _ => true
   | .extractionError m => m ≠ ""
   | .otherError m => m ≠ "") &&
  (match llm with
   | .ok _ => true
   | .timeout => true
   | .failed m => m ≠ "")

/-- The scenario of §8 of the spec: a breaker with `threshold = 3`,
`timeout = 60` after three consecutive failures recorded at time 0. -/
def cbAfter3 : CircuitBreaker :=
  CircuitBreaker.applyFailures 0 3 (CircuitBreaker.init 3 60)

end Scraper

namespace Scraper

namespace CircuitBreaker

theorem applyFailures_failures (t : ℚ) :
    ∀ (n : ℕ) (cb : CircuitBreaker),
      (applyFailures t n cb).failures = cb.failures + n := by
  intro n
  induction n with
  | zero => intro cb; simp [applyFailures]
  | succ m ih =>
      intro cb
      simp only [applyFailures, ih, record_failure]
      omega

theorem applyFailures_threshold (t : ℚ) :
    ∀ (n : ℕ) (cb : CircuitBreaker),
      (applyFailures t n cb).threshold = cb.threshold := by
  intro n
  induction n with
  | zero => intro cb; simp [applyFailures]
  | succ m ih => intro cb; simp only [applyFailures, ih, record_failure]

theorem applyFailures_is_open (t : ℚ) :
    ∀ (n : ℕ) (cb : CircuitBreaker),
      (applyFailures t n cb).is_open = true ↔
        cb.is_open = true ∨ (1 ≤ n ∧ cb.threshold ≤ cb.failures + n) := by
  intro n
  induction n with
  | zero => intro cb; simp [applyFailures]
  | succ m ih =>
      intro cb
      simp only [applyFailures, ih, record_failure, Bool.or_eq_true,
        decide_eq_true_eq]
      constructor
      · rintro ((h | h) | ⟨h1, h2⟩)
        · exact Or.inl h
        · exact Or.inr ⟨by omega, by omega⟩
        · exact Or.inr ⟨by omega, by omega⟩
      · rintro (h | ⟨h1, h2⟩)
        · exact Or.inl (Or.inl h)
        · by_cases hm : cb.threshold ≤ cb.failures + 1
          · exact Or.inl (Or.inr hm)
          · exact Or.inr ⟨by omega, by omega⟩

end CircuitBreaker

theorem cbAfter3_eq : cbAfter3 = ⟨3, 60, 3, 0, true⟩ := by
  simp [cbAfter3, CircuitBreaker.applyFailures, CircuitBreaker.record_failure,
    CircuitBreaker.init]

theorem elapsed_61_gt_timeout : (61 : ℚ) - cbAfter3.last_failure_time > cbAfter3.timeout := by
  rw [cbAfter3_eq]
  norm_num

open CircuitBreaker in
/-- C1 counterexample: for the spec's own scenario (`threshold = 3`,
`timeout = 60`, three failures at time 0), the call permitted at time 61
is not a Half-Open probe. The breaker state it leaves behind is fully
closed with the failure count reset, so when that "probe" call fails the
breaker does NOT return to Open (its single failure is below the
threshold), and a further attempt is immediately permitted again —
contradicting the claim that a failed probe reopens the breaker. -/
theorem C1_probe_counterexample :
    cbAfter3.is_open = true ∧
    (can_attempt 61 cbAfter3).1 = true ∧
    (record_failure 61 (can_attempt 61 cbAfter3).2).is_open = false ∧
    (can_attempt 61 (record_failure 61 (can_attempt 61 cbAfter3).2)).1 = true := by
  rw [cbAfter3_eq]
  simp [can_attempt, record_failure]
  norm_num

open CircuitBreaker in
/-- C1 amended: whenever the breaker is Open and strictly more than
`timeout` seconds have elapsed since the last recorded failure, the next
`can_attempt` closes the breaker entirely and resets the failure count to
zero. From that state every subsequent call is permitted (not only a
single probe); a success keeps the breaker Closed with zero failures; and
the breaker reopens only once a fresh run of `threshold` consecutive
failures accumulates (in particular a single probe failure reopens it
exactly when `threshold ≤ 1`). -/
theorem C1_probe_amended (cb : CircuitBreaker) (now : ℚ)
    (hopen : cb.is_open = true)
    (helapsed : now - cb.last_failure_time > cb.timeout) :
    can_attempt now cb = (true, { cb with is_open := false, failures := 0 }) ∧
    (∀ now2 : ℚ, (can_attempt now2 { cb with is_open := false, failures := 0 }).1 = true) ∧
    (∀ t : ℚ, ∀ n : ℕ,
      (applyFailures t n { cb with is_open := false, failures := 0 }).is_open = true
        ↔ 1 ≤ n ∧ cb.threshold ≤ n) ∧
    (∀ t : ℚ, (record_failure t { cb with is_open := false, failures := 0 }).is_open
        = decide (cb.threshold ≤ 1)) ∧
    (record_success { cb with is_open := false, failures := 0 }).failures = 0 ∧
    (record_success { cb with is_open := false, failures := 0 }).is_open = false := by
  refine ⟨?_, ?_, ?_, ?_, ?_, ?_⟩
  · simp [can_attempt, hopen, helapsed]
  · intro now2; simp [can_attempt]
  · intro t n
    rw [applyFailures_is_open]
    simp
  · intro t
    simp [record_failure]
  · simp [record_success]
  · simp [record_success]

open CircuitBreaker in
/-- C1 witness: the amended statement instantiated at the spec's §8
scenario (threshold 3, timeout 60, three failures at time 0, next call
at time 61). -/
theorem C1_probe_amended_witness :
    cbAfter3.is_open = true ∧
    (61 : ℚ) - cbAfter3.last_failure_time > cbAfter3.timeout ∧
    (can_attempt 61 cbAfter3
      = (true, { cbAfter3 with is_open := false, failures := 0 }) ∧
    (∀ now2 : ℚ,
      (can_attempt now2 { cbAfter3 with is_open := false, failures := 0 }).1 = true) ∧
    (∀ t : ℚ, ∀ n : ℕ,
      (applyFailures t n { cbAfter3 with is_open := false, failures := 0 }).is_open = true
        ↔ 1 ≤ n ∧ cbAfter3.threshold ≤ n) ∧
    (∀ t : ℚ, (record_failure t { cbAfter3 with is_open := false, failures := 0 }).is_open
        = decide (cbAfter3.threshold ≤ 1)) ∧
    (record_success { cbAfter3 with is_open := false, failures := 0 }).failures = 0 ∧
    (record_success { cbAfter3 with is_open := false, failures := 0 }).is_open = false) :=
  ⟨by rw [cbAfter3_eq], elapsed_61_gt_timeout,
    C1_probe_amended cbAfter3 61 (by rw [cbAfter3_eq]) elapsed_61_gt_timeout⟩

/-- C9: every outbound link extracted by the discovery worker from a
successfully fetched page is classified into a page kind by URL-pattern
matching (first matching pattern in `PATTERNS` order), assigned its
priority from the static kind-to-priority table, and routed to exactly
one queue: the extraction queue exactly when its kind is high-value
(club transfers, player transfers, player profile) and the discovery
queue exactly otherwise — never both; the publishing phase emits exactly
one routed task per extracted link. -/
theorem C9_link_routing (taskUrl link : String) (patMatch : PageType → Bool)
    (tm_id : Option String)
    (links : List (String × (PageType → Bool) × Option String)) :
    (route_link taskUrl link patMatch tm_id).2.page_type = classify_url patMatch ∧
    (route_link taskUrl link patMatch tm_id).2.priority
        = prioritize_url (classify_url patMatch) ∧
    ((route_link taskUrl link patMatch tm_id).1 = QueueName.extraction
        ↔ classify_url patMatch ∈ highValueKinds) ∧
    ((route_link taskUrl link patMatch tm_id).1 = QueueName.discovery
        ↔ classify_url patMatch ∉ highValueKinds) ∧
    publish_links taskUrl links
        = links.map (fun l => route_link taskUrl l.1 l.2.1 l.2.2) ∧
    (publish_links taskUrl links).length = links.length := by
  refine ⟨?_, ?_, ?_, ?_, rfl, by simp [publish_links]⟩
  · by_cases h : classify_url patMatch ∈ highValueKinds <;> simp [route_link, h]
  · by_cases h : classify_url patMatch ∈ highValueKinds <;> simp [route_link, h]
  · by_cases h : classify_url patMatch ∈ highValueKinds <;> simp [route_link, h]
  · by_cases h : classify_url patMatch ∈ highValueKinds <;> simp [route_link, h]

theorem lookup_metaInsert (k : String) (v : MetaVal) :
    ∀ m : List (String × MetaVal), List.lookup k (metaInsert k v m) = some v := by
  intro m
  induction m with
  | nil => simp [metaInsert, List.lookup]
  | cons a m ih =>
      by_cases h : a.1 = k
      · simpa [metaInsert, h] using ih
      · have hk : (k == a.1) = false := by
          simp only [beq_eq_false_iff_ne, ne_eq]
          exact fun hh => h hh.symm
        simp only [metaInsert, List.filter_cons] at ih ⊢
        rw [if_pos (by simpa using h)]
        simp only [List.cons_append, List.lookup, hk]
        simpa using ih

/-- C8: a repair task whose selector-suggestion call succeeds makes the
repair worker publish to the extraction queue exactly one new task, for
the original task's locator, with `retry_count` incremented by one and
the suggested selectors attached under the `suggested_selectors`
metadata key (on top of the original task's metadata and a `repaired`
flag); a repair task whose suggestion call fails publishes nothing — the
helper merely returns `False`, which `process_task` discards, so the
repair is never itself retried. -/
theorem C8_repair_publish (rt : RepairTask) (sel : List (String × String)) :
    (∃ t : ScrapingTask,
      (repair_selectors rt (some sel)).1 = [(QueueName.extraction, t)] ∧
      t.url = rt.original_task.url ∧
      t.page_type = rt.original_task.page_type ∧
      t.retry_count = rt.original_task.retry_count + 1 ∧
      List.lookup "suggested_selectors" t.metadata = some (MetaVal.selectors sel)) ∧
    (repair_selectors rt none).1 = [] ∧
    (repair_selectors rt none).2 = false := by
  refine ⟨⟨_, rfl, rfl, rfl, rfl, ?_⟩, rfl, rfl⟩
  exact lookup_metaInsert _ _ _

/-- C3: for a page on the allow-list (a Transfermarkt URL) whose kind is
enabled for deterministic extraction, with fallback enabled, if the
deterministic parser fails then the returned result's
`extraction_backend` is the deterministic-then-generative tag
"bs_fallback_llm" and its `success` flag is that of the generative
attempt, not the deterministic one. -/
theorem C3_fallback_result (s : ScraperSettings) (bs : BsOutcome) (llm : LlmOutcome)
    (validator : Option ValidationReport) (url : String) (pt : PageType)
    (hurl : is_transfermarkt_url url = true)
    (hbs : should_use_bs_for_page_type s pt = true)
    (hfail : (extract_from_page_bs s bs validator url pt).success = false)
    (hfb : s.bs_fallback_to_llm = true) :
    (extract_from_page s bs llm validator url pt).extraction_backend
        = "bs_fallback_llm" ∧
    (extract_from_page s bs llm validator url pt).success
        = (extract_from_page_llm llm url pt).success := by
  simp [extract_from_page, hurl, hbs, hfail, hfb]

/-- C3 witness: a Transfermarkt club-transfers page with BS extraction
enabled for all kinds, a failing deterministic parse, fallback enabled,
and a failing generative attempt: the backend tag is "bs_fallback_llm"
and `success` is the generative attempt's `false`. -/
theorem C3_fallback_result_witness :
    is_transfermarkt_url "https://www.transfermarkt.com/en/transfers/verein/11" = true ∧
    should_use_bs_for_page_type ⟨true, [], true, true, 3⟩ PageType.club_transfers = true ∧
    (extract_from_page_bs ⟨true, [], true, true, 3⟩ (BsOutcome.extractionError "no table")
        none "https://www.transfermarkt.com/en/transfers/verein/11"
        PageType.club_transfers).success = false ∧
    (extract_from_page ⟨true, [], true, true, 3⟩ (BsOutcome.extractionError "no table")
        (LlmOutcome.failed "bad json") none
        "https://www.transfermarkt.com/en/transfers/verein/11"
        PageType.club_transfers).extraction_backend = "bs_fallback_llm" ∧
    (extract_from_page ⟨true, [], true, true, 3⟩ (BsOutcome.extractionError "no table")
        (LlmOutcome.failed "bad json") none
        "https://www.transfermarkt.com/en/transfers/verein/11"
        PageType.club_transfers).success
      = (extract_from_page_llm (LlmOutcome.failed "bad json")
          "https://www.transfermarkt.com/en/transfers/verein/11"
          PageType.club_transfers).success :=
  ⟨by decide, by decide, by decide,
    C3_fallback_result ⟨true, [], true, true, 3⟩ (BsOutcome.extractionError "no table")
      (LlmOutcome.failed "bad json") none
      "https://www.transfermarkt.com/en/transfers/verein/11"
      PageType.club_transfers (by decide) (by decide) (by decide) (by decide)⟩

theorem timeout_msg_ne_empty (url : String) :
    "LLM extraction timeout for " ++ url ≠ "" := by
  intro h
  have h2 := congrArg String.data h
  simp [String.append] at h2

/-- C7 counterexample: a generative extraction that fails with an
exception whose string representation is empty (Python's
`str(Exception())`) yields an ExtractionResult with `success = false`
whose `error` field is the empty string — not a non-empty string as the
claim requires. -/
theorem C7_error_counterexample :
    (extract_from_page ⟨false, [], true, true, 3⟩ (BsOutcome.parsed [])
        (LlmOutcome.failed "") none
        "https://www.transfermarkt.com/en/profil/spieler/8198"
        PageType.player_profile).success = false ∧
    (extract_from_page ⟨false, [], true, true, 3⟩ (BsOutcome.parsed [])
        (LlmOutcome.failed "") none
        "https://www.transfermarkt.com/en/profil/spieler/8198"
        PageType.player_profile).error = some "" := by
  constructor <;> rfl

/-- C7 amended: every ExtractionResult produced by the extraction worker
with `success = false` has its `error` field set (never `None`) — it is
the string of the exception that failed the attempt — and it is a
non-empty string provided the failing exception's message is non-empty
(an exception with an empty string representation produces an empty
`error`). -/
theorem C7_error_amended (s : ScraperSettings) (bs : BsOutcome) (llm : LlmOutcome)
    (validator : Option ValidationReport) (url : String) (pt : PageType)
    (hfail : (extract_from_page s bs llm validator url pt).success = false) :
    (extract_from_page s bs llm validator url pt).error ≠ none ∧
    (nonEmptyMsgs bs llm = true →
      ∃ m : String, (extract_from_page s bs llm validator url pt).error = some m
        ∧ m ≠ "") := by
  unfold extract_from_page at *
  by_cases hroute : (is_transfermarkt_url url && should_use_bs_for_page_type s pt) = true
  · simp only [hroute, if_true] at hfail ⊢
    by_cases hfb : (extract_from_page_bs s bs validator url pt).success = false
        ∧ s.bs_fallback_to_llm = true
    · simp only [if_pos hfb] at hfail ⊢
      cases llm with
      | ok p => simp [extract_from_page_llm] at hfail
      | timeout =>
          refine ⟨by simp [extract_from_page_llm], fun _ => ?_⟩
          refine ⟨"LLM extraction timeout for " ++ url, by simp [extract_from_page_llm], ?_⟩
          exact timeout_msg_ne_empty url
      | failed m =>
          refine ⟨by simp [extract_from_page_llm], fun hne => ?_⟩
          refine ⟨m, by simp [extract_from_page_llm], ?_⟩
          simp only [nonEmptyMsgs, Bool.and_eq_true, decide_eq_true_eq] at hne
          exact hne.2
    · simp only [if_neg hfb] at hfail ⊢
      cases bs with
      | parsed p => simp [extract_from_page_bs] at hfail
      | extractionError m =>
          refine ⟨by simp [extract_from_page_bs], fun hne => ?_⟩
          refine ⟨m, by simp [extract_from_page_bs], ?_⟩
          simp only [nonEmptyMsgs, Bool.and_eq_true, decide_eq_true_eq] at hne
          exact hne.1
      | otherError m =>
          refine ⟨by simp [extract_from_page_bs], fun hne => ?_⟩
          refine ⟨m, by simp [extract_from_page_bs], ?_⟩
          simp only [nonEmptyMsgs, Bool.and_eq_true, decide_eq_true_eq] at hne
          exact hne.1
  · simp only [Bool.not_eq_true] at hroute
    simp only [hroute, Bool.false_eq_true, if_false] at hfail ⊢
    cases llm with
    | ok p => simp [extract_from_page_llm] at hfail
    | timeout =>
        refine ⟨by simp [extract_from_page_llm], fun _ => ?_⟩
        refine ⟨"LLM extraction timeout for " ++ url, by simp [extract_from_page_llm], ?_⟩
        exact timeout_msg_ne_empty url
    | failed m =>
        refine ⟨by simp [extract_from_page_llm], fun hne => ?_⟩
        refine ⟨m, by simp [extract_from_page_llm], ?_⟩
        simp only [nonEmptyMsgs, Bool.and_eq_true, decide_eq_true_eq] at hne
        exact hne.2

/-- C7 witness: the amended statement at a concrete failing generative
extraction whose exception message is non-empty. -/
theorem C7_error_amended_witness :
    (extract_from_page ⟨false, [], true, true, 3⟩ (BsOutcome.parsed [])
        (LlmOutcome.failed "bad json") none
        "https://www.transfermarkt.com/en/profil/spieler/8198"
        PageType.player_profile).success = false ∧
    ((extract_from_page ⟨false, [], true, true, 3⟩ (BsOutcome.parsed [])
        (LlmOutcome.failed "bad json") none
        "https://www.transfermarkt.com/en/profil/spieler/8198"
        PageType.player_profile).error ≠ none ∧
    (nonEmptyMsgs (BsOutcome.parsed []) (LlmOutcome.failed "bad json") = true →
      ∃ m : String,
        (extract_from_page ⟨false, [], true, true, 3⟩ (BsOutcome.parsed [])
          (LlmOutcome.failed "bad json") none
          "https://www.transfermarkt.com/en/profil/spieler/8198"
          PageType.player_profile).error = some m ∧ m ≠ "")) :=
  ⟨by decide,
    C7_error_amended ⟨false, [], true, true, 3⟩ (BsOutcome.parsed [])
      (LlmOutcome.failed "bad json") none
      "https://www.transfermarkt.com/en/profil/spieler/8198"
      PageType.player_profile (by decide)⟩

/-- C2 counterexample: an extraction task whose fetch fails on every
attempt (timeouts, fetch returns `None`) and whose `retry_count = 0` is
below `max_retries = 3` is NOT routed to the repair queue — the worker
logs and returns, publishing nothing, contrary to the claim that fetch
failures are routed to repair while retries remain. -/
theorem C2_fetch_failure_counterexample :
    (fetch_page 3 [] true (fun _ => FetchResponse.timeoutError)
        "https://www.transfermarkt.com/en/profil/spieler/8198").result = none ∧
    (0 : ℕ) < 3 ∧
    (process_task ⟨false, [], true, true, 3⟩ [] true (fun _ => FetchResponse.timeoutError)
        (BsOutcome.parsed []) (LlmOutcome.ok []) none
        ⟨"https://www.transfermarkt.com/en/profil/spieler/8198", PageType.player_profile,
          5, [], 0⟩).repairs = [] := by
  refine ⟨rfl, by decide, rfl⟩

/-- C2 amended: a fetch that produces no HTML — `fetch_page` returning
`None`, or a 200 response with an empty body (both falsy under the
source's `if not html:` guard) — makes the extraction worker log and
drop the task: nothing is persisted and nothing is published to the
repair queue, regardless of `retry_count`. Repair routing happens only
after a fetch yielding non-empty HTML: the worker then persists exactly
one result and publishes a repair task exactly when the extraction
failed and `retry_count < max_retries`; once `retry_count` reaches
`max_retries`, failures are persisted but no longer routed to repair. -/
theorem C2_fetch_failure_amended (s : ScraperSettings) (visited : List String)
    (sessionUp : Bool) (resp : ℕ → FetchResponse) (bs : BsOutcome) (llm : LlmOutcome)
    (validator : Option ValidationReport) (task : ScrapingTask) :
    ((fetch_page s.max_retries visited sessionUp resp task.url).result = none →
      process_task s visited sessionUp resp bs llm validator task
        = ⟨[], [], (fetch_page s.max_retries visited sessionUp resp task.url).visited⟩) ∧
    ((fetch_page s.max_retries visited sessionUp resp task.url).result = some "" →
      process_task s visited sessionUp resp bs llm validator task
        = ⟨[], [], (fetch_page s.max_retries visited sessionUp resp task.url).visited⟩) ∧
    (∀ html : String,
      (fetch_page s.max_retries visited sessionUp resp task.url).result = some html →
      html ≠ "" →
      (process_task s visited sessionUp resp bs llm validator task).saved
          = [extract_from_page s bs llm validator task.url task.page_type] ∧
      (process_task s visited sessionUp resp bs llm validator task).repairs
          = if (extract_from_page s bs llm validator task.url task.page_type).success = false
                ∧ task.retry_count < s.max_retries
            then [⟨task.url, task.page_type, html.take 5000, [],
                   (match (extract_from_page s bs llm validator task.url
                            task.page_type).error with
                    | some m => if m = "" then "Unknown error" else m
                    | none => "Unknown error"),
                   task⟩]
            else [] ) := by
  refine ⟨?_, ?_, ?_⟩
  · intro h
    simp only [process_task, h]
  · intro h
    simp [process_task, h]
  · intro html h hne
    simp only [process_task, h]
    rw [if_neg hne]
    exact ⟨rfl, rfl⟩

/-- C2 witness: the amended statement at a concrete successful fetch with
a failing generative extraction and `retry_count = 0 < max_retries = 3`:
exactly one result is persisted and exactly one repair task published. -/
theorem C2_fetch_failure_amended_witness :
    (fetch_page 3 [] true (fun _ => FetchResponse.ok "<html></html>")
        "https://www.transfermarkt.com/en/profil/spieler/8198").result
        = some "<html></html>" ∧
    (process_task ⟨false, [], true, true, 3⟩ [] true
        (fun _ => FetchResponse.ok "<html></html>")
        (BsOutcome.parsed []) (LlmOutcome.failed "bad json") none
        ⟨"https://www.transfermarkt.com/en/profil/spieler/8198", PageType.player_profile,
          5, [], 0⟩).saved
        = [extract_from_page ⟨false, [], true, true, 3⟩ (BsOutcome.parsed [])
            (LlmOutcome.failed "bad json") none
            "https://www.transfermarkt.com/en/profil/spieler/8198"
            PageType.player_profile] ∧
    (process_task ⟨false, [], true, true, 3⟩ [] true
        (fun _ => FetchResponse.ok "<html></html>")
        (BsOutcome.parsed []) (LlmOutcome.failed "bad json") none
        ⟨"https://www.transfermarkt.com/en/profil/spieler/8198", PageType.player_profile,
          5, [], 0⟩).repairs
        = if (extract_from_page ⟨false, [], true, true, 3⟩ (BsOutcome.parsed [])
                (LlmOutcome.failed "bad json") none
                "https://www.transfermarkt.com/en/profil/spieler/8198"
                PageType.player_profile).success = false
              ∧ (0 : ℕ) < 3
          then [⟨"https://www.transfermarkt.com/en/profil/spieler/8198",
                 PageType.player_profile, String.take "<html></html>" 5000, [],
                 (match (extract_from_page ⟨false, [], true, true, 3⟩ (BsOutcome.parsed [])
                          (LlmOutcome.failed "bad json") none
                          "https://www.transfermarkt.com/en/profil/spieler/8198"
                          PageType.player_profile).error with
                  | some m => if m = "" then "Unknown error" else m
                  | none => "Unknown error"),
                 ⟨"https://www.transfermarkt.com/en/profil/spieler/8198",
                   PageType.player_profile, 5, [], 0⟩⟩]
          else [] :=
  ⟨by decide,
    ((C2_fetch_failure_amended ⟨false, [], true, true, 3⟩ [] true
        (fun _ => FetchResponse.ok "<html></html>")
        (BsOutcome.parsed []) (LlmOutcome.failed "bad json") none
        ⟨"https://www.transfermarkt.com/en/profil/spieler/8198", PageType.player_profile,
          5, [], 0⟩).2.2 "<html></html>" (by decide) (by decide)).1,
    ((C2_fetch_failure_amended ⟨false, [], true, true, 3⟩ [] true
        (fun _ => FetchResponse.ok "<html></html>")
        (BsOutcome.parsed []) (LlmOutcome.failed "bad json") none
        ⟨"https://www.transfermarkt.com/en/profil/spieler/8198", PageType.player_profile,
          5, [], 0⟩).2.2 "<html></html>" (by decide) (by decide)).2⟩

theorem fetchLoop_visited (resp : ℕ → FetchResponse) (url : String)
    (visited : List String) :
    ∀ (n i : ℕ) (c : String), (fetchLoop resp url visited i n).1 = some c →
      (fetchLoop resp url visited i n).2.1 = url :: visited := by
  intro n
  induction n with
  | zero => intro i c h; simp [fetchLoop] at h
  | succ m ih =>
      intro i c h
      cases hr : resp i <;> simp only [fetchLoop, hr] at h ⊢ <;>
        first
          | rfl
          | exact ih (i + 1) c h

/-- C10: a URL already in the agent's in-process visited set makes
`fetch_page` return `None` immediately — no HTTP request, no politeness
delay, visited set unchanged; a successful fetch adds the URL to the
visited set; and because the extraction worker reuses the same fetch
primitive, an extraction task for a locator already in the visited set
produces no persisted result and no repair publication. -/
theorem C10_visited_short_circuit (mr : ℕ) (visited : List String) (sessionUp : Bool)
    (resp : ℕ → FetchResponse) (url : String)
    (v2 : List String) (su2 : Bool) (resp2 : ℕ → FetchResponse) (url2 c : String)
    (s : ScraperSettings) (bs : BsOutcome) (llm : LlmOutcome)
    (validator : Option ValidationReport) (task : ScrapingTask)
    (hv : url ∈ visited)
    (h2 : (fetch_page mr v2 su2 resp2 url2).result = some c)
    (htv : task.url ∈ visited) :
    fetch_page mr visited sessionUp resp url
        = ⟨none, visited, 0, false, []⟩ ∧
    url2 ∈ (fetch_page mr v2 su2 resp2 url2).visited ∧
    process_task s visited sessionUp resp bs llm validator task
        = ⟨[], [], visited⟩ := by
  refine ⟨by simp [fetch_page, hv], ?_, ?_⟩
  · by_cases hin : url2 ∈ v2
    · simp [fetch_page, hin] at h2
    · by_cases hsu : su2 = false
      · simp [fetch_page, hin, hsu] at h2
      · simp only [fetch_page, if_neg (by simpa using hin), if_neg hsu] at h2 ⊢
        rw [fetchLoop_visited resp2 url2 v2 mr 0 c h2]
        exact List.mem_cons_self url2 v2
  · have hf : fetch_page s.max_retries visited sessionUp resp task.url
        = ⟨none, visited, 0, false, []⟩ := by simp [fetch_page, htv]
    simp only [process_task, hf]

/-- C10 witness: the statement at a concrete locator fetched once
(successfully, entering the visited set) and then requested again. -/
theorem C10_visited_short_circuit_witness :
    "https://www.transfermarkt.com/en/profil/spieler/8198"
        ∈ ["https://www.transfermarkt.com/en/profil/spieler/8198"] ∧
    (fetch_page 3 [] true (fun _ => FetchResponse.ok "<html></html>")
        "https://www.transfermarkt.com/en/profil/spieler/8198").result
        = some "<html></html>" ∧
    (fetch_page 3 ["https://www.transfermarkt.com/en/profil/spieler/8198"] true
        (fun _ => FetchResponse.timeoutError)
        "https://www.transfermarkt.com/en/profil/spieler/8198"
        = ⟨none, ["https://www.transfermarkt.com/en/profil/spieler/8198"], 0, false, []⟩ ∧
    "https://www.transfermarkt.com/en/profil/spieler/8198"
        ∈ (fetch_page 3 [] true (fun _ => FetchResponse.ok "<html></html>")
            "https://www.transfermarkt.com/en/profil/spieler/8198").visited ∧
    process_task ⟨false, [], true, true, 3⟩
        ["https://www.transfermarkt.com/en/profil/spieler/8198"] true
        (fun _ => FetchResponse.timeoutError) (BsOutcome.parsed []) (LlmOutcome.ok [])
        none
        ⟨"https://www.transfermarkt.com/en/profil/spieler/8198", PageType.player_profile,
          5, [], 1⟩
        = ⟨[], [], ["https://www.transfermarkt.com/en/profil/spieler/8198"]⟩) :=
  ⟨by decide, by decide,
    C10_visited_short_circuit 3 ["https://www.transfermarkt.com/en/profil/spieler/8198"]
      true (fun _ => FetchResponse.timeoutError)
      "https://www.transfermarkt.com/en/profil/spieler/8198"
      [] true (fun _ => FetchResponse.ok "<html></html>")
      "https://www.transfermarkt.com/en/profil/spieler/8198" "<html></html>"
      ⟨false, [], true, true, 3⟩ (BsOutcome.parsed []) (LlmOutcome.ok []) none
      ⟨"https://www.transfermarkt.com/en/profil/spieler/8198", PageType.player_profile,
        5, [], 1⟩
      (by decide) (by decide) (by decide)⟩

theorem elapsed_30_le_timeout :
    (30 : ℚ) - cbAfter3.last_failure_time ≤ cbAfter3.timeout := by
  rw [cbAfter3_eq]
  norm_num

/-- C4: from a fresh closed breaker, `n` consecutive recorded failures
leave the breaker Open exactly when `n` reaches `threshold`; and any
`_execute_with_backoff` invocation made while the breaker is Open within
the timeout window fails fast with the distinguishable breaker-open
error: zero invocations of the underlying call, no backoff sleeps, the
rate limiter untouched (no semaphore slot taken, no token debited), and
the breaker state — failure count included — unchanged. -/
theorem C4_open_fail_fast (threshold : ℕ) (timeout t : ℚ) (n : ℕ)
    (cfg : ExecConfig) (now : ℚ) (waits : List ℚ) (att : ℕ → Outcome) (jit : ℕ → ℚ)
    (cb : CircuitBreaker) (rl : RateLimiter)
    (hth : 1 ≤ threshold)
    (hopen : cb.is_open = true)
    (hwin : now - cb.last_failure_time ≤ cb.timeout) :
    ((CircuitBreaker.applyFailures t n
        (CircuitBreaker.init threshold timeout)).is_open = true ↔ threshold ≤ n) ∧
    executeWithBackoff cfg now waits att jit cb rl
        = ⟨ExecResult.breakerOpen, [], 0, cb, rl⟩ := by
  constructor
  · rw [CircuitBreaker.applyFailures_is_open]
    simp only [CircuitBreaker.init, Bool.false_eq_true, false_or, Nat.zero_add]
    omega
  · have hnot : ¬(now - cb.last_failure_time > cb.timeout) := not_lt.mpr hwin
    have hca : cb.can_attempt now = (false, cb) := by
      simp [CircuitBreaker.can_attempt, hopen, hnot]
    simp [executeWithBackoff, hca]

/-- C4 witness: the spec's §8 scenario — threshold 3, three failures at
time 0, a call attempted 30 seconds later fails fast with the breaker
untouched. -/
theorem C4_open_fail_fast_witness :
    (1 : ℕ) ≤ 3 ∧
    cbAfter3.is_open = true ∧
    (30 : ℚ) - cbAfter3.last_failure_time ≤ cbAfter3.timeout ∧
    (((CircuitBreaker.applyFailures 0 3
        (CircuitBreaker.init 3 60)).is_open = true ↔ (3 : ℕ) ≤ 3) ∧
    executeWithBackoff ⟨5, 1, 60⟩ 30 [] (fun _ => Outcome.ok "done") (fun _ => 0)
        cbAfter3 (RateLimiter.init 20 2)
        = ⟨ExecResult.breakerOpen, [], 0, cbAfter3, RateLimiter.init 20 2⟩) :=
  ⟨by decide, by decide, elapsed_30_le_timeout,
    C4_open_fail_fast 3 60 0 3 ⟨5, 1, 60⟩ 30 [] (fun _ => Outcome.ok "done") (fun _ => 0)
      cbAfter3 (RateLimiter.init 20 2) (by decide) (by decide) elapsed_30_le_timeout⟩

namespace RateLimiter

theorem refill_tokens_le (now : ℚ) (st : RateLimiter) :
    (refill now st).tokens ≤ st.requests_per_minute :=
  min_le_left _ _

theorem waitLoop_some (waits : List ℚ) :
    ∀ (st r : RateLimiter), waitLoop st waits = some r →
      1 ≤ r.tokens ∧
      r.requests_per_minute = st.requests_per_minute ∧
      r.semAvailable = st.semAvailable ∧
      r.active_requests = st.active_requests ∧
      (st.tokens ≤ st.requests_per_minute → r.tokens ≤ r.requests_per_minute) := by
  induction waits with
  | nil =>
      intro st r h
      simp only [waitLoop] at h
      by_cases h1 : 1 ≤ st.tokens
      · rw [if_pos h1] at h
        cases h
        exact ⟨h1, rfl, rfl, rfl, fun hh => hh⟩
      · rw [if_neg h1] at h
        cases h
  | cons t ts ih =>
      intro st r h
      simp only [waitLoop] at h
      by_cases h1 : 1 ≤ st.tokens
      · rw [if_pos h1] at h
        cases h
        exact ⟨h1, rfl, rfl, rfl, fun hh => hh⟩
      · rw [if_neg h1] at h
        obtain ⟨ha, hb, hc, hd, he⟩ := ih (refill t st) r h
        exact ⟨ha, hb, hc, hd, fun _ => he (refill_tokens_le t st)⟩

theorem acquire_spec (now : ℚ) (waits : List ℚ) (st st' : RateLimiter)
    (h : acquire now waits st = some st') :
    1 ≤ st.semAvailable ∧
    st'.semAvailable = st.semAvailable - 1 ∧
    st'.active_requests = st.active_requests + 1 ∧
    st'.requests_per_minute = st.requests_per_minute ∧
    st'.tokens ≤ st.requests_per_minute - 1 ∧
    (∃ r : RateLimiter,
      waitLoop (refill now { st with semAvailable := st.semAvailable - 1 }) waits
          = some r ∧ 1 ≤ r.tokens ∧ st'.tokens = r.tokens - 1) := by
  unfold acquire at h
  by_cases hs : st.semAvailable = 0
  · rw [if_pos hs] at h
    cases h
  · rw [if_neg hs] at h
    cases hw : waitLoop (refill now { st with semAvailable := st.semAvailable - 1 }) waits
        with
    | none => rw [hw] at h; cases h
    | some r =>
        rw [hw] at h
        cases h
        obtain ⟨h1, h2, h3, h4, h5⟩ :=
          waitLoop_some waits (refill now { st with semAvailable := st.semAvailable - 1 })
            r hw
        refine ⟨by omega, ?_, ?_, ?_, ?_, ⟨r, rfl, h1, rfl⟩⟩
        · simpa using h3
        · simpa using h4
        · simpa using h2
        · have h6 := h5 (refill_tokens_le now { st with semAvailable := st.semAvailable - 1 })
          have h7 : r.tokens ≤ st.requests_per_minute := by
            rw [h2] at h6
            exact h6
          simpa using sub_le_sub_right h7 1

end RateLimiter

theorem acquire_example :
    RateLimiter.acquire 0 [] (RateLimiter.init 20 2) = some ⟨20, 2, 19, 0, 1, 1⟩ := by
  simp [RateLimiter.acquire, RateLimiter.waitLoop, RateLimiter.refill, RateLimiter.init]
  norm_num

open RateLimiter in
/-- C6: the rate limiter's token count never exceeds
`requests_per_minute` — the bucket starts at the cap, each refill is
capped at `requests_per_minute`, and a completed `acquire` leaves at most
`requests_per_minute` tokens; every completed `acquire` holds a semaphore
slot (one slot is taken) and debits exactly one token after waiting for
at least one to be available; and when the wrapped call completes,
success or failure alike, `_execute_with_backoff` releases exactly the
semaphore slot — the in-flight slot count returns to its pre-call value
while the consumed token is never returned. -/
theorem C6_rate_limiter (rpm : ℚ) (mc : ℕ) (now t : ℚ) (waits : List ℚ)
    (st st' : RateLimiter) (cfg : ExecConfig) (att : ℕ → Outcome) (jit : ℕ → ℚ)
    (cb : CircuitBreaker) (rl rl1 : RateLimiter)
    (hacq : acquire now waits st = some st')
    (hrl : acquire now waits rl = some rl1)
    (hcan : (cb.can_attempt now).1 = true) :
    (RateLimiter.init rpm mc).tokens = rpm ∧
    (refill t st).tokens ≤ st.requests_per_minute ∧
    st'.tokens ≤ st.requests_per_minute ∧
    (1 ≤ st.semAvailable ∧ st'.semAvailable = st.semAvailable - 1 ∧
      st'.active_requests = st.active_requests + 1 ∧
      (∃ r : RateLimiter,
        waitLoop (refill now { st with semAvailable := st.semAvailable - 1 }) waits
            = some r ∧ 1 ≤ r.tokens ∧ st'.tokens = r.tokens - 1)) ∧
    ((release st).tokens = st.tokens ∧
      (release st).semAvailable = st.semAvailable + 1 ∧
      (release st).active_requests = st.active_requests - 1) ∧
    ((executeWithBackoff cfg now waits att jit cb rl).rl = rl1.release ∧
      (executeWithBackoff cfg now waits att jit cb rl).rl.tokens = rl1.tokens ∧
      (executeWithBackoff cfg now waits att jit cb rl).rl.semAvailable
          = rl.semAvailable) := by
  obtain ⟨ha1, ha2, ha3, ha4, ha5, ha6⟩ := acquire_spec now waits st st' hacq
  obtain ⟨hb1, hb2, _, _, _, _⟩ := acquire_spec now waits rl rl1 hrl
  have hexec : executeWithBackoff cfg now waits att jit cb rl
      = ⟨(retryLoop cfg.max_retries cfg.base_backoff cfg.max_backoff now att jit
            (cb.can_attempt now).2 0 cfg.max_retries).1,
         (retryLoop cfg.max_retries cfg.base_backoff cfg.max_backoff now att jit
            (cb.can_attempt now).2 0 cfg.max_retries).2.1,
         (retryLoop cfg.max_retries cfg.base_backoff cfg.max_backoff now att jit
            (cb.can_attempt now).2 0 cfg.max_retries).2.2.1,
         (retryLoop cfg.max_retries cfg.base_backoff cfg.max_backoff now att jit
            (cb.can_attempt now).2 0 cfg.max_retries).2.2.2,
         rl1.release⟩ := by
    simp only [executeWithBackoff, hcan, Bool.true_eq_false, if_false, hrl]
  refine ⟨rfl, refill_tokens_le t st,
    le_trans ha5 (by linarith), ⟨ha1, ha2, ha3, ha6⟩, ⟨rfl, rfl, rfl⟩, ?_, ?_, ?_⟩
  · rw [hexec]
  · rw [hexec]
    rfl
  · rw [hexec]
    show rl1.semAvailable + 1 = rl.semAvailable
    omega

/-- C6 witness: a limiter configured for 20 requests/minute and 2
concurrent slots, acquired at time 0 with a full bucket. -/
theorem C6_rate_limiter_witness :
    RateLimiter.acquire 0 [] (RateLimiter.init 20 2) = some ⟨20, 2, 19, 0, 1, 1⟩ ∧
    ((CircuitBreaker.init 3 60).can_attempt 0).1 = true ∧
    ((RateLimiter.init 20 2).tokens = 20 ∧
    (RateLimiter.refill 5 (RateLimiter.init 20 2)).tokens
        ≤ (RateLimiter.init 20 2).requests_per_minute ∧
    (⟨20, 2, 19, 0, 1, 1⟩ : RateLimiter).tokens
        ≤ (RateLimiter.init 20 2).requests_per_minute ∧
    (1 ≤ (RateLimiter.init 20 2).semAvailable ∧
      (⟨20, 2, 19, 0, 1, 1⟩ : RateLimiter).semAvailable
          = (RateLimiter.init 20 2).semAvailable - 1 ∧
      (⟨20, 2, 19, 0, 1, 1⟩ : RateLimiter).active_requests
          = (RateLimiter.init 20 2).active_requests + 1 ∧
      (∃ r : RateLimiter,
        RateLimiter.waitLoop
            (RateLimiter.refill 0
              { RateLimiter.init 20 2 with
                  semAvailable := (RateLimiter.init 20 2).semAvailable - 1 }) []
            = some r ∧ 1 ≤ r.tokens ∧
          (⟨20, 2, 19, 0, 1, 1⟩ : RateLimiter).tokens = r.tokens - 1)) ∧
    ((RateLimiter.release (RateLimiter.init 20 2)).tokens
          = (RateLimiter.init 20 2).tokens ∧
      (RateLimiter.release (RateLimiter.init 20 2)).semAvailable
          = (RateLimiter.init 20 2).semAvailable + 1 ∧
      (RateLimiter.release (RateLimiter.init 20 2)).active_requests
          = (RateLimiter.init 20 2).active_requests - 1) ∧
    ((executeWithBackoff ⟨5, 1, 60⟩ 0 [] (fun _ => Outcome.ok "done") (fun _ => 0)
          (CircuitBreaker.init 3 60) (RateLimiter.init 20 2)).rl
        = RateLimiter.release ⟨20, 2, 19, 0, 1, 1⟩ ∧
      (executeWithBackoff ⟨5, 1, 60⟩ 0 [] (fun _ => Outcome.ok "done") (fun _ => 0)
          (CircuitBreaker.init 3 60) (RateLimiter.init 20 2)).rl.tokens
        = (⟨20, 2, 19, 0, 1, 1⟩ : RateLimiter).tokens ∧
      (executeWithBackoff ⟨5, 1, 60⟩ 0 [] (fun _ => Outcome.ok "done") (fun _ => 0)
          (CircuitBreaker.init 3 60) (RateLimiter.init 20 2)).rl.semAvailable
        = (RateLimiter.init 20 2).semAvailable)) :=
  ⟨acquire_example, by decide,
    C6_rate_limiter 20 2 0 5 [] (RateLimiter.init 20 2) ⟨20, 2, 19, 0, 1, 1⟩
      ⟨5, 1, 60⟩ (fun _ => Outcome.ok "done") (fun _ => 0)
      (CircuitBreaker.init 3 60) (RateLimiter.init 20 2) ⟨20, 2, 19, 0, 1, 1⟩
      acquire_example acquire_example (by decide)⟩

theorem retryLoop_ok_step (mr : ℕ) (base maxB tNow : ℚ) (att : ℕ → Outcome)
    (jit : ℕ → ℚ) (cb : CircuitBreaker) (i n : ℕ) (v : String)
    (ha : att i = .ok v) :
    retryLoop mr base maxB tNow att jit cb i (n + 1)
      = (.value v, [], 1, cb.record_success) := by
  simp [retryLoop, ha]

theorem retryLoop_raise_step (mr : ℕ) (base maxB tNow : ℚ) (att : ℕ → Outcome)
    (jit : ℕ → ℚ) (cb : CircuitBreaker) (i n : ℕ) (r : Bool) (msg : String)
    (ha : att i = .err r msg) (hc : r = false ∨ i = mr - 1) :
    retryLoop mr base maxB tNow att jit cb i (n + 1)
      = (.raised msg, [], 1, cb.record_failure tNow) := by
  simp only [retryLoop, ha]
  rw [if_pos hc]

theorem retryLoop_sleeps (mr : ℕ) (base maxB tNow : ℚ) (att : ℕ → Outcome)
    (jit : ℕ → ℚ) (cb : CircuitBreaker) :
    ∀ (n i j : ℕ), j < (retryLoop mr base maxB tNow att jit cb i n).2.1.length →
      (retryLoop mr base maxB tNow att jit cb i n).2.1.getD j 0
        = nominalBackoff base maxB (i + j)
            + nominalBackoff base maxB (i + j) * jit (i + j) := by
  intro n
  induction n with
  | zero =>
      intro i j h
      simp [retryLoop] at h
  | succ m ih =>
      intro i j h
      cases ha : att i with
      | ok v =>
          exfalso
          simp [retryLoop, ha] at h
      | err r msg =>
          by_cases hc : r = false ∨ i = mr - 1
          · exfalso
            rw [show retryLoop mr base maxB tNow att jit cb i (m + 1)
                = (.raised msg, [], 1, cb.record_failure tNow) from
              retryLoop_raise_step mr base maxB tNow att jit cb i m r msg ha hc] at h
            simp at h
          · have step : retryLoop mr base maxB tNow att jit cb i (m + 1)
                = ((retryLoop mr base maxB tNow att jit cb (i + 1) m).1,
                   (nominalBackoff base maxB i + nominalBackoff base maxB i * jit i)
                     :: (retryLoop mr base maxB tNow att jit cb (i + 1) m).2.1,
                   (retryLoop mr base maxB tNow att jit cb (i + 1) m).2.2.1 + 1,
                   (retryLoop mr base maxB tNow att jit cb (i + 1) m).2.2.2) := by
              simp only [retryLoop, ha]
              rw [if_neg hc]
            rw [step] at h ⊢
            cases j with
            | zero => simp
            | succ kk =>
                have hlt :
                    kk < (retryLoop mr base maxB tNow att jit cb (i + 1) m).2.1.length := by
                  simpa using h
                have hih := ih (i + 1) kk hlt
                have harith : i + 1 + kk = i + (kk + 1) := by omega
                rw [harith] at hih
                simpa using hih

theorem retryLoop_skip (mr : ℕ) (base maxB tNow : ℚ) (att : ℕ → Outcome)
    (jit : ℕ → ℚ) (cb : CircuitBreaker) :
    ∀ (d i n : ℕ), i + n = mr → i + d < mr →
      (∀ l, l < d → ∃ msg, att (i + l) = .err true msg) →
      (retryLoop mr base maxB tNow att jit cb i n).1
          = (retryLoop mr base maxB tNow att jit cb (i + d) (n - d)).1 ∧
      (retryLoop mr base maxB tNow att jit cb i n).2.2.2
          = (retryLoop mr base maxB tNow att jit cb (i + d) (n - d)).2.2.2 ∧
      (retryLoop mr base maxB tNow att jit cb i n).2.1.length
          = d + (retryLoop mr base maxB tNow att jit cb (i + d) (n - d)).2.1.length ∧
      (retryLoop mr base maxB tNow att jit cb i n).2.2.1
          = d + (retryLoop mr base maxB tNow att jit cb (i + d) (n - d)).2.2.1 := by
  intro d
  induction d with
  | zero =>
      intro i n _ _ _
      simp
  | succ dd ih =>
      intro i n h1 h2 h3
      obtain ⟨msg, hm⟩ := h3 0 (Nat.succ_pos dd)
      rw [Nat.add_zero] at hm
      obtain ⟨n', rfl⟩ : ∃ n', n = n' + 1 := ⟨n - 1, by omega⟩
      have hc : ¬(true = false ∨ i = mr - 1) := by
        rintro (h | h)
        · exact Bool.noConfusion h
        · omega
      have step : retryLoop mr base maxB tNow att jit cb i (n' + 1)
          = ((retryLoop mr base maxB tNow att jit cb (i + 1) n').1,
             (nominalBackoff base maxB i + nominalBackoff base maxB i * jit i)
               :: (retryLoop mr base maxB tNow att jit cb (i + 1) n').2.1,
             (retryLoop mr base maxB tNow att jit cb (i + 1) n').2.2.1 + 1,
             (retryLoop mr base maxB tNow att jit cb (i + 1) n').2.2.2) := by
        simp only [retryLoop, hm]
        rw [if_neg hc]
      have hpre2 : ∀ l, l < dd → ∃ m2, att (i + 1 + l) = .err true m2 := by
        intro l hl
        obtain ⟨m2, hm2⟩ := h3 (l + 1) (by omega)
        refine ⟨m2, ?_⟩
        rw [show i + 1 + l = i + (l + 1) from by omega]
        exact hm2
      have hrec := ih (i + 1) n' (by omega) (by omega) hpre2
      have e1 : i + (dd + 1) = i + 1 + dd := by omega
      have e2 : n' + 1 - (dd + 1) = n' - dd := by omega
      refine ⟨?_, ?_, ?_, ?_⟩
      · rw [step, e1, e2]
        exact hrec.1
      · rw [step, e1, e2]
        exact hrec.2.1
      · rw [step, e1, e2]
        simp only [List.length_cons]
        have := hrec.2.2.1
        omega
      · rw [step, e1, e2]
        dsimp only
        have := hrec.2.2.2
        omega

/-- C5: within one `_execute_with_backoff` retry loop started at attempt
0: every backoff sleep performed after the `j`-th failed (retryable,
non-last) attempt equals `min(base_backoff * 2 ** j, max_backoff)` plus
that nominal value times the jitter draw `jit j`, hence lies within ±25%
of the nominal value whenever every draw satisfies the
`random.uniform(-0.25, 0.25)` bound; after a prefix of `k` retryable
errors, a successful attempt `k` returns its value and records a success
against the breaker, having slept exactly `k` times and invoked the call
`k + 1` times; a non-retryable error at attempt `k` records a failure
against the breaker and re-raises; and the last of `max_retries`
attempts, retryable or not, records a failure and re-raises. -/
theorem C5_backoff_retry (mr k : ℕ) (base maxB tNow : ℚ) (att : ℕ → Outcome)
    (jit : ℕ → ℚ) (cb : CircuitBreaker)
    (hbase : 0 ≤ base) (hmaxB : 0 ≤ maxB)
    (hjit : ∀ i : ℕ, |jit i| ≤ 1 / 4)
    (hk : k < mr)
    (hpre : ∀ i : ℕ, i < k → ∃ msg : String, att i = Outcome.err true msg) :
    (∀ j : ℕ, j < (retryLoop mr base maxB tNow att jit cb 0 mr).2.1.length →
      (retryLoop mr base maxB tNow att jit cb 0 mr).2.1.getD j 0
          = nominalBackoff base maxB j + nominalBackoff base maxB j * jit j ∧
      |(retryLoop mr base maxB tNow att jit cb 0 mr).2.1.getD j 0
          - nominalBackoff base maxB j| ≤ nominalBackoff base maxB j / 4) ∧
    (∀ v : String, att k = Outcome.ok v →
      (retryLoop mr base maxB tNow att jit cb 0 mr).1 = ExecResult.value v ∧
      (retryLoop mr base maxB tNow att jit cb 0 mr).2.2.2 = cb.record_success ∧
      (retryLoop mr base maxB tNow att jit cb 0 mr).2.1.length = k ∧
      (retryLoop mr base maxB tNow att jit cb 0 mr).2.2.1 = k + 1) ∧
    (∀ msg : String, att k = Outcome.err false msg →
      (retryLoop mr base maxB tNow att jit cb 0 mr).1 = ExecResult.raised msg ∧
      (retryLoop mr base maxB tNow att jit cb 0 mr).2.2.2 = cb.record_failure tNow ∧
      (retryLoop mr base maxB tNow att jit cb 0 mr).2.1.length = k ∧
      (retryLoop mr base maxB tNow att jit cb 0 mr).2.2.1 = k + 1) ∧
    (∀ (r : Bool) (msg : String), k = mr - 1 → att k = Outcome.err r msg →
      (retryLoop mr base maxB tNow att jit cb 0 mr).1 = ExecResult.raised msg ∧
      (retryLoop mr base maxB tNow att jit cb 0 mr).2.2.2 = cb.record_failure tNow) := by
  have hskip := retryLoop_skip mr base maxB tNow att jit cb k 0 mr (by omega) (by omega)
      (fun l hl => by simpa using hpre l hl)
  obtain ⟨f', hf⟩ : ∃ f', mr - k = f' + 1 := ⟨mr - k - 1, by omega⟩
  refine ⟨?_, ?_, ?_, ?_⟩
  · intro j hj
    have hA := retryLoop_sleeps mr base maxB tNow att jit cb mr 0 j hj
    rw [Nat.zero_add] at hA
    refine ⟨hA, ?_⟩
    rw [hA]
    have hb : 0 ≤ nominalBackoff base maxB j := le_min (by positivity) hmaxB
    have habs : |nominalBackoff base maxB j + nominalBackoff base maxB j * jit j
        - nominalBackoff base maxB j| = |nominalBackoff base maxB j * jit j| := by
      congr 1
      ring
    rw [habs, abs_mul, abs_of_nonneg hb]
    calc nominalBackoff base maxB j * |jit j|
        ≤ nominalBackoff base maxB j * (1 / 4) :=
          mul_le_mul_of_nonneg_left (hjit j) hb
      _ = nominalBackoff base maxB j / 4 := by ring
  · intro v hv
    have hstep := retryLoop_ok_step mr base maxB tNow att jit cb k f' v hv
    have h1 := hskip.1
    have h2 := hskip.2.1
    have h3 := hskip.2.2.1
    have h4 := hskip.2.2.2
    rw [Nat.zero_add, hf, hstep] at h1 h2 h3 h4
    exact ⟨by simpa using h1, by simpa using h2, by simpa using h3, by simpa using h4⟩
  · intro msg hm
    have hstep := retryLoop_raise_step mr base maxB tNow att jit cb k f' false msg hm
      (Or.inl rfl)
    have h1 := hskip.1
    have h2 := hskip.2.1
    have h3 := hskip.2.2.1
    have h4 := hskip.2.2.2
    rw [Nat.zero_add, hf, hstep] at h1 h2 h3 h4
    exact ⟨by simpa using h1, by simpa using h2, by simpa using h3, by simpa using h4⟩
  · intro r msg hkmr hm
    have hstep := retryLoop_raise_step mr base maxB tNow att jit cb k f' r msg hm
      (Or.inr hkmr)
    have h1 := hskip.1
    have h2 := hskip.2.1
    rw [Nat.zero_add, hf, hstep] at h1 h2
    exact ⟨by simpa using h1, by simpa using h2⟩

theorem q_zero_le_one : (0 : ℚ) ≤ 1 := by norm_num

theorem q_zero_le_sixty : (0 : ℚ) ≤ 60 := by norm_num

theorem jit_zero_le_quarter : ∀ i : ℕ, |(fun _ : ℕ => (0 : ℚ)) i| ≤ 1 / 4 := by
  intro i
  norm_num

/-- C5 witness: two attempts, the first a retryable timeout, the second
a success; base backoff 1s, cap 60s, zero jitter draws. -/
theorem C5_backoff_retry_witness :
    (0 : ℚ) ≤ 1 ∧ (0 : ℚ) ≤ 60 ∧
    (∀ i : ℕ, |(fun _ : ℕ => (0 : ℚ)) i| ≤ 1 / 4) ∧
    (1 : ℕ) < 2 ∧
    (∀ i : ℕ, i < 1 → ∃ msg : String,
      (fun n : ℕ => if n = 0 then Outcome.err true "Request timeout"
        else Outcome.ok "completion") i = Outcome.err true msg) ∧
    (∀ v : String,
      (fun n : ℕ => if n = 0 then Outcome.err true "Request timeout"
        else Outcome.ok "completion") 1 = Outcome.ok v →
      (retryLoop 2 1 60 10
          (fun n : ℕ => if n = 0 then Outcome.err true "Request timeout"
            else Outcome.ok "completion")
          (fun _ : ℕ => (0 : ℚ)) (CircuitBreaker.init 3 60) 0 2).1
          = ExecResult.value v ∧
      (retryLoop 2 1 60 10
          (fun n : ℕ => if n = 0 then Outcome.err true "Request timeout"
            else Outcome.ok "completion")
          (fun _ : ℕ => (0 : ℚ)) (CircuitBreaker.init 3 60) 0 2).2.2.2
          = (CircuitBreaker.init 3 60).record_success ∧
      (retryLoop 2 1 60 10
          (fun n : ℕ => if n = 0 then Outcome.err true "Request timeout"
            else Outcome.ok "completion")
          (fun _ : ℕ => (0 : ℚ)) (CircuitBreaker.init 3 60) 0 2).2.1.length = 1 ∧
      (retryLoop 2 1 60 10
          (fun n : ℕ => if n = 0 then Outcome.err true "Request timeout"
            else Outcome.ok "completion")
          (fun _ : ℕ => (0 : ℚ)) (CircuitBreaker.init 3 60) 0 2).2.2.1 = 1 + 1) :=
  ⟨q_zero_le_one, q_zero_le_sixty, jit_zero_le_quarter, by decide,
    fun i hi => by
      rw [Nat.lt_one_iff.mp hi]
      exact ⟨"Request timeout", rfl⟩,
    (C5_backoff_retry 2 1 1 60 10
      (fun n : ℕ => if n = 0 then Outcome.err true "Request timeout"
        else Outcome.ok "completion")
      (fun _ : ℕ => (0 : ℚ)) (CircuitBreaker.init 3 60)
      q_zero_le_one q_zero_le_sixty jit_zero_le_quarter (by decide)
      (fun i hi => by
        rw [Nat.lt_one_iff.mp hi]
        exact ⟨"Request timeout", rfl⟩)).2.1⟩

end Scraper
